import Mathlib

/-!
Shallow embedding of `app.py` (Pak Buy Pro AI Server): the hybrid
product-title cleaning pipeline — the regex-based Pattern Extractor
(`clean_title_with_regex`), the AI completion wrapper
(`clean_title_with_ai`), the `lru_cache` memoization
(`cached_clean_title`), and the HTTP-level operations
(`clean_title_endpoint`, `clean_batch_endpoint`, `health_check`).

Python's `re` module is embedded by a small backtracking matcher that
covers exactly the constructs appearing in the source patterns:
literals (case-insensitive, since every pattern that needs it is compiled
with `re.IGNORECASE`), character classes, sequencing, alternation
(left-preferring), greedy and lazy quantification of single-character
classes, optional subpatterns, capture groups, word boundaries and the
end anchor.  `re.search` is leftmost-match; `re.sub` replaces each
non-overlapping leftmost match scanning the original string.
-/

namespace PakBuy

/-- Python `\s`: space, tab, newline, carriage return, vertical tab, form feed. -/
def isSpaceChar (c : Char) : Bool :=
  c == ' ' || c == Char.ofNat 9 || c == Char.ofNat 10 ||
  c == Char.ofNat 13 || c == Char.ofNat 11 || c == Char.ofNat 12

/-- Python `\w` restricted to ASCII (all evaluated inputs are ASCII). -/
def isWordChar (c : Char) : Bool := c.isAlphanum || c == '_'

/-- Case-insensitive single-character matcher (`re.IGNORECASE`). -/
def ciChar (c : Char) : Char → Bool := fun d => d.toLower == c.toLower

/-- Regular expressions: exactly the constructs used by `app.py`'s patterns.
Quantifiers (`*`, `+`, lazy or greedy) only ever apply to single-character
classes in the source, so `starCls` quantifies a character predicate. -/
inductive Re where
  | eps
  | cls (p : Char → Bool)
  | seq (a b : Re)
  | alt (a b : Re)
  | starCls (p : Char → Bool) (lazy : Bool)
  | opt (r : Re) (lazy : Bool)
  | group (n : Nat) (r : Re)
  | wordB
  | eol

/-- Capture groups: group number paired with the captured characters;
the most recent capture of a group is listed first. -/
abbrev Caps := List (Nat × List Char)

def getCap (n : Nat) : Caps → Option (List Char)
  | [] => none
  | (m, v) :: rest => if m = n then some v else getCap n rest

/-- `match.group(n) or ''` on a successful match. -/
def capStr (n : Nat) (g : Caps) : String := ⟨(getCap n g).getD []⟩

/-- Word-boundary test: `prev` is the character just before the current
position (none at the start of the string). -/
def atBoundary (prev : Option Char) (s : List Char) : Bool :=
  (match prev with | some c => isWordChar c | none => false) !=
  (match s with | c :: _ => isWordChar c | [] => false)

/-- Backtracking loop for a quantified character class.  Greedy tries the
longest repetition first; lazy tries the continuation before consuming. -/
def starRun (p : Char → Bool) (lz : Bool) :
    Option Char → List Char → Caps →
    (Option Char → List Char → Caps → Option (List Char × Caps)) →
    Option (List Char × Caps)
  | prev, s, g, k =>
    if lz then
      match k prev s g with
      | some r => some r
      | none =>
        match s with
        | [] => none
        | c :: rest => if p c then starRun p lz (some c) rest g k else none
    else
      match s with
      | [] => k prev s g
      | c :: rest =>
        if p c then
          match starRun p lz (some c) rest g k with
          | some r => some r
          | none => k prev s g
        else k prev s g

/-- Continuation-passing backtracking matcher.  `prev` is the character
before the current position (for word boundaries), `s` the remaining
input, `g` the captures so far; `k` receives the state after this
subpattern.  Alternation prefers the left branch; an optional subpattern
prefers matching (greedy) or skipping (lazy), as in Python `re`. -/
def matchRe : Re → Option Char → List Char → Caps →
    (Option Char → List Char → Caps → Option (List Char × Caps)) →
    Option (List Char × Caps)
  | Re.eps, prev, s, g, k => k prev s g
  | Re.cls p, _, s, g, k =>
    match s with
    | [] => none
    | c :: rest => if p c then k (some c) rest g else none
  | Re.seq a b, prev, s, g, k =>
    matchRe a prev s g (fun p2 s2 g2 => matchRe b p2 s2 g2 k)
  | Re.alt a b, prev, s, g, k =>
    match matchRe a prev s g k with
    | some r => some r
    | none => matchRe b prev s g k
  | Re.starCls p lz, prev, s, g, k => starRun p lz prev s g k
  | Re.opt r lz, prev, s, g, k =>
    if lz then
      match k prev s g with
      | some res => some res
      | none => matchRe r prev s g k
    else
      match matchRe r prev s g k with
      | some res => some res
      | none => k prev s g
  | Re.group n r, prev, s, g, k =>
    matchRe r prev s g (fun p2 s2 g2 =>
      k p2 s2 ((n, s.take (s.length - s2.length)) :: g2))
  | Re.wordB, prev, s, g, k =>
    if atBoundary prev s then k prev s g else none
  | Re.eol, prev, s, g, k =>
    if s.isEmpty || s == [Char.ofNat 10] then k prev s g else none

/-- Attempt a match anchored at the current position; on success return
the remaining input and the captures. -/
def tryMatch (r : Re) (prev : Option Char) (s : List Char) :
    Option (List Char × Caps) :=
  matchRe r prev s [] (fun _ rest g => some (rest, g))

/-- `re.search`: leftmost match, returning its captures. -/
def searchCaps (r : Re) : Option Char → List Char → Option Caps
  | prev, s =>
    match tryMatch r prev s with
    | some (_, g) => some g
    | none =>
      match s with
      | [] => none
      | c :: rest => searchCaps r (some c) rest

def pySearch (r : Re) (s : String) : Option Caps := searchCaps r none s.data

/-- `re.sub` scan: replace each non-overlapping leftmost match of `r` by
`repl`, scanning the original characters.  `fuel` bounds the recursion
(each step consumes at least one input character; no pattern in the
source can match the empty string, but the empty-match case advances one
character as modern Python does). -/
def subRun (r : Re) (repl : List Char) :
    Nat → Option Char → List Char → List Char
  | 0, _, s => s
  | fuel + 1, prev, s =>
    match tryMatch r prev s with
    | some (rest, _) =>
      let len := s.length - rest.length
      if len = 0 then
        match s with
        | [] => repl
        | c :: s2 => repl ++ c :: subRun r repl fuel (some c) s2
      else repl ++ subRun r repl fuel ((s.take len).getLast?) rest
    | none =>
      match s with
      | [] => []
      | c :: s2 => c :: subRun r repl fuel (some c) s2

def pySub (r : Re) (repl : String) (s : String) : String :=
  ⟨subRun r repl.data (s.data.length + 1) none s.data⟩

/-- Python `str.strip()`. -/
def pyStrip (s : String) : String :=
  ⟨((s.data.dropWhile isSpaceChar).reverse.dropWhile isSpaceChar).reverse⟩

/-- Case-insensitive literal (all of `app.py`'s literal patterns are
compiled with `re.IGNORECASE`; on non-letters this is exact matching). -/
def lit (s : String) : Re :=
  (s.data.map (fun c => Re.cls (ciChar c))).foldr Re.seq Re.eps

def rseq (l : List Re) : Re := l.foldr Re.seq Re.eps

/-- Greedy `+` over a character class. -/
def plusG (p : Char → Bool) : Re := Re.seq (Re.cls p) (Re.starCls p false)

/-- Lazy `+?` over a character class. -/
def plusL (p : Char → Bool) : Re := Re.seq (Re.cls p) (Re.starCls p true)

/-- `\s*` -/
def wsStar : Re := Re.starCls isSpaceChar false

/-- `\s+` -/
def wsPlus : Re := plusG isSpaceChar

def optG (r : Re) : Re := Re.opt r false

/-- The ordered `garbage_patterns` list of `clean_title_with_regex`
(`app.py` lines 105-129), each applied with `re.sub(…, '', …, re.IGNORECASE)`. -/
def garbagePatterns : List Re := [
  rseq [lit "PTA", wsStar, lit "Approve", optG (Re.cls (ciChar 'd'))],
  rseq [lit "Official", wsStar, lit "Warranty"],
  rseq [lit "Fast", wsStar, lit "Shipping"],
  rseq [lit "Cash", wsStar, lit "on", wsStar, lit "Delivery"],
  rseq [lit "Free", wsStar, lit "Delivery"],
  rseq [lit "Installment", optG (Re.cls (ciChar 's'))],
  rseq [lit "Easy", wsStar, lit "Payment"],
  lit "Original",
  lit "Authentic",
  rseq [Re.wordB, lit "New", Re.wordB],
  rseq [Re.wordB, lit "Sealed", Re.wordB],
  rseq [lit "In", wsStar, lit "Stock"],
  lit "Available",
  rseq [lit "Limited", wsStar, lit "Stock"],
  rseq [lit "Hot", wsStar, lit "Deal"],
  lit "Sale",
  lit "Discount",
  rseq [plusG Char.isDigit, lit "%", wsStar, lit "Off"],
  rseq [lit "Special", wsStar, lit "Offer"],
  Re.alt (lit "₹") (Re.alt (rseq [lit "Rs", optG (Re.cls (ciChar '.'))]) (lit "PKR")),
  plusG (fun c => c == '⭐' || c == '★' || c == '✓' || c == '✔'),
  lit "|",
  lit "•"]

/-- `[|•\-_]+` -/
def sepRun : Re := plusG (fun c => c == '|' || c == '•' || c == '-' || c == '_')

/-- `\([^)]*\)` -/
def parenRe : Re :=
  rseq [Re.cls (fun c => c == '('), Re.starCls (fun c => c != ')') false,
        Re.cls (fun c => c == ')')]

/-- `[A-Z0-9]` under `re.IGNORECASE`: any ASCII letter or digit. -/
def alnumCls (c : Char) : Bool := c.isAlpha || c.isDigit

/-- `[A-Za-z0-9\s]` -/
def modelCls (c : Char) : Bool := c.isAlpha || c.isDigit || isSpaceChar c

/-- `\d+GB` -/
def gbTok : Re := rseq [plusG Char.isDigit, lit "GB"]

def mobile_brands : List String :=
  ["Samsung", "iPhone", "Xiaomi", "Oppo", "Vivo", "Realme",
   "Infinix", "Tecno", "OnePlus", "Google", "Nokia", "Huawei", "Motorola"]

/-- Mobile template (line 148):
`(brand)\s+([A-Z0-9][A-Za-z0-9\s]+?)(?:\s+(\d+GB))?(?:\s+(\d+GB))?` -/
def mobilePattern (brand : String) : Re :=
  rseq [Re.group 1 (lit brand), wsPlus,
        Re.group 2 (Re.seq (Re.cls alnumCls) (plusL modelCls)),
        optG (Re.seq wsPlus (Re.group 3 gbTok)),
        optG (Re.seq wsPlus (Re.group 4 gbTok))]

/-- `\s+(with|and|for|official|factory).*$` (line 158), applied to
the captured model span with `re.sub(…, '', …, re.IGNORECASE)`. -/
def modelTrimRe : Re :=
  rseq [wsPlus,
        Re.group 1 (Re.alt (lit "with") (Re.alt (lit "and")
          (Re.alt (lit "for") (Re.alt (lit "official") (lit "factory"))))),
        Re.starCls (fun c => c != Char.ofNat 10) false, Re.eol]

/-- The mobile-brand loop (lines 147-161): first matching brand wins;
group 2 is stripped and junk-trimmed, groups 3/4 default to the empty
string, and the cleaned string is rebuilt as `brand model ram storage`. -/
def applyMobile : List String → String → String
  | [], cleaned => cleaned
  | brand :: rest, cleaned =>
    match pySearch (mobilePattern brand) cleaned with
    | some caps =>
      let brand_name := capStr 1 caps
      let model := pySub modelTrimRe "" (pyStrip (capStr 2 caps))
      let ram := capStr 3 caps
      let storage := capStr 4 caps
      pyStrip (brand_name ++ " " ++ model ++ " " ++ ram ++ " " ++ storage)
    | none => applyMobile rest cleaned

def laptop_brands : List String :=
  ["HP", "Dell", "Lenovo", "Asus", "Acer", "MSI", "Apple", "MacBook"]

/-- Laptop template (line 167):
`(brand)\s+([A-Za-z0-9\s]+?)(?:\s+(i[3579]|Ryzen\s*[3579]|M[12]))?` -/
def laptopPattern (brand : String) : Re :=
  rseq [Re.group 1 (lit brand), wsPlus,
        Re.group 2 (plusL modelCls),
        optG (Re.seq wsPlus (Re.group 3
          (Re.alt (rseq [Re.cls (ciChar 'i'),
                         Re.cls (fun c => c == '3' || c == '5' || c == '7' || c == '9')])
            (Re.alt (rseq [lit "Ryzen", wsStar,
                           Re.cls (fun c => c == '3' || c == '5' || c == '7' || c == '9')])
              (rseq [Re.cls (ciChar 'M'),
                     Re.cls (fun c => c == '1' || c == '2')])))))]

/-- `(\d+GB)\s*RAM` (line 176). -/
def ramRe : Re := rseq [Re.group 1 gbTok, wsStar, lit "RAM"]

/-- `(\d+GB|\d+TB)\s*(?:SSD|HDD|Storage)` (line 177). -/
def storageRe : Re :=
  rseq [Re.group 1 (Re.alt gbTok (rseq [plusG Char.isDigit, lit "TB"])),
        wsStar, Re.alt (lit "SSD") (Re.alt (lit "HDD") (lit "Storage"))]

/-- The laptop-brand loop (lines 166-183): first matching brand wins; RAM
and storage are searched in the whole current cleaned string. -/
def applyLaptop : List String → String → String
  | [], cleaned => cleaned
  | brand :: rest, cleaned =>
    match pySearch (laptopPattern brand) cleaned with
    | some caps =>
      let brand_name := capStr 1 caps
      let model := pyStrip (capStr 2 caps)
      let processor := capStr 3 caps
      let ram := match pySearch ramRe cleaned with
        | some c2 => capStr 1 c2
        | none => ""
      let storage := match pySearch storageRe cleaned with
        | some c2 => capStr 1 c2
        | none => ""
      pyStrip (brand_name ++ " " ++ model ++ " " ++ processor ++ " " ++
               ram ++ " " ++ storage)
    | none => applyLaptop rest cleaned

/-- `clean_title_with_regex` (`app.py` lines 99-189): noise-stripping
passes in order, whitespace/symbol normalization, mobile-brand extraction,
laptop-brand extraction, final normalization. -/
def clean_title_with_regex (title : String) : String :=
  let cleaned := garbagePatterns.foldl (fun acc p => pySub p "" acc) title
  let cleaned := pySub wsPlus " " cleaned
  let cleaned := pySub sepRun " " cleaned
  let cleaned := pySub parenRe "" cleaned
  let cleaned := pyStrip cleaned
  let cleaned := applyMobile mobile_brands cleaned
  let cleaned := applyLaptop laptop_brands cleaned
  pyStrip (pySub wsPlus " " cleaned)

/-- The AI environment: the process-wide `AI_ENABLED` flag (set once at
startup) and the external text-completion capability
(`model.generate_content`), which either returns a response text or
fails (timeout or provider error), modelled as `none`. -/
structure AIEnv where
  enabled : Bool
  complete : String → Option String

/-- One invocation of the external AI capability: the prompt sent, the
`signal.alarm` deadline installed around it (line 54), and the raw
response (`none` when the call timed out or errored). -/
structure AICall where
  prompt : String
  alarmSeconds : Nat
  response : Option String
deriving DecidableEq

/-- The f-string prompt of `clean_title_with_ai` (lines 56-77). -/
def promptText (title : String) : String :=
  "Extract only the essential product information from this title.\n\nRemove: promotional text, warranty info, shipping info, seller info, PTA approved, official warranty, cash on delivery, installment, sealed, original, authentic, new, limited stock, sale, discount, special offer, hot deal.\n\nKeep: brand, model, RAM, storage, screen size, processor, color (only if important).\n\nTitle: " ++
  title ++
  "\n\nReturn ONLY the cleaned product name with key specs in this exact format:\nBrand Model RAM Storage\n\nExamples:\n- Input: \"Samsung Galaxy A15 8GB/256GB PTA Approved Official Warranty Fast Shipping\"\n  Output: \"Samsung Galaxy A15 8GB 256GB\"\n  \n- Input: \"iPhone 13 Pro Max 256GB Factory Unlocked Original Apple Warranty\"\n  Output: \"iPhone 13 Pro Max 256GB\"\n  \n- Input: \"HP Pavilion Gaming Laptop i5 11th Gen 8GB RAM 512GB SSD\"\n  Output: \"HP Pavilion Gaming i5 11th Gen 8GB 512GB\"\n\nNow clean this title (reply with ONLY the cleaned version, no explanation):"

/-- `.replace('"', '').replace("'", "")` (line 87): drop every double or
single quote character. -/
def stripQuotes (s : String) : String :=
  ⟨s.data.filter (fun c => c != '"' && c != Char.ofNat 39)⟩

/-- `clean_title_with_ai` (lines 42-97): returns `None` when AI is
disabled; otherwise sends the prompt under a 3-second alarm; a timeout or
any provider exception yields `None`; a successful response is stripped,
quote-scrubbed and stripped again.  The second component is the list of
external invocations performed (empty or a singleton). -/
def clean_title_with_ai (env : AIEnv) (title : String) :
    Option String × List AICall :=
  if !env.enabled then (none, [])
  else
    let prompt := promptText title
    let response := env.complete prompt
    let call : AICall := ⟨prompt, 3, response⟩
    match response with
    | none => (none, [call])
    | some text => (some (pyStrip (stripQuotes (pyStrip text))), [call])

/-- State of the `functools.lru_cache(maxsize=1000)` wrapper around
`clean_title_with_ai`: entries (most recently used first, storing the
wrapped function's return value — including `None`), and the cumulative
hit and miss counters exposed by `cache_info()`. -/
structure CacheState where
  entries : List (String × Option String)
  hits : Nat
  misses : Nat
deriving DecidableEq

def emptyCache : CacheState := ⟨[], 0, 0⟩

/-- Exact-match lookup keyed by the literal title string. -/
def lookupCache (t : String) : List (String × Option String) → Option (Option String)
  | [] => none
  | e :: rest => if e.1 = t then some e.2 else lookupCache t rest

/-- `cached_clean_title` (lines 33-36): on a hit, return the memoized
value (hit counter up, entry moved to front); on a miss, run
`clean_title_with_ai`, memoize its return value (the least recently used
entry is evicted beyond capacity 1000) and bump the miss counter.
The third component lists the external AI invocations performed. -/
def cached_clean_title (env : AIEnv) (title : String) (s : CacheState) :
    Option String × CacheState × List AICall :=
  match lookupCache title s.entries with
  | some v =>
    (v, ⟨(title, v) :: s.entries.filter (fun e => e.1 != title),
         s.hits + 1, s.misses⟩, [])
  | none =>
    let out := clean_title_with_ai env title
    (out.1, ⟨((title, out.1) :: s.entries).take 1000,
             s.hits, s.misses + 1⟩, out.2)

/-- The JSON body returned by `/clean-title` on HTTP 200: `time_ms` and
`error` are optional because the ultimate-fallback body (lines 255-262)
has no `time_ms` and the normal bodies have no `error`. -/
structure CleanResponse where
  success : Bool
  original : String
  cleaned : String
  method : String
  confidence : ℚ
  timeMs : Option Int
  error : Option String
deriving DecidableEq

/-- Outcome of `clean_title_endpoint`: a 200 result body, or the 400
`No title provided` error (lines 206-210). -/
inductive EndpointResult where
  | ok (r : CleanResponse)
  | badRequest (error : String)
deriving DecidableEq

/-- Python `int()` applied to a rational: truncation toward zero. -/
def pyInt (q : ℚ) : Int := if 0 ≤ q then ⌊q⌋ else ⌈q⌉

/-- PLAN A of the endpoint (lines 217-228): when AI is enabled, call the
cache-wrapped cleaner and discard its result if the elapsed wall time
exceeds the caller's budget; when disabled, no AI attempt is made.
Returns the surviving AI result, the cache state and the AI calls. -/
def planA (env : AIEnv) (title : String) (cache : CacheState)
    (timeout elapsedAI : ℚ) : Option String × CacheState × List AICall :=
  if env.enabled then
    let o := cached_clean_title env title cache
    (if elapsedAI > timeout then none else o.1, o.2.1, o.2.2)
  else (none, cache, [])

/-- `clean_title_endpoint` (lines 195-262), modelled at the level of a
parsed request: `title` and `timeout` are the request fields (`timeout`
defaults to 3 upstream), `elapsedAI` and `elapsedTotal` are the wall
times observed at lines 221 and 239/249, and `fault` injects an
unexpected exception occurring after the title was bound (the outer
`except` of lines 252-262, whose body returns the original title with
method `none` and confidence 0.5).  `if not title` rejects the empty
title with a 400 error; `if not ai_result` treats both `None` and the
empty string as AI failure and falls back to the Pattern Extractor. -/
def clean_title_endpoint (env : AIEnv) (cache : CacheState) (title : String)
    (timeout elapsedAI elapsedTotal : ℚ) (fault : Option String) :
    EndpointResult × CacheState × List AICall :=
  if title = "" then (.badRequest "No title provided", cache, [])
  else
    match fault with
    | some e =>
      (.ok ⟨true, title, title, "none", 1/2, none, some e⟩, cache, [])
    | none =>
      let o := planA env title cache timeout elapsedAI
      match o.1 with
      | some s =>
        if s = "" then
          (.ok ⟨true, title, clean_title_with_regex title, "regex", 3/4,
                some (pyInt (elapsedTotal * 1000)), none⟩, o.2.1, o.2.2)
        else
          (.ok ⟨true, title, s, "ai", 19/20,
                some (pyInt (elapsedTotal * 1000)), none⟩, o.2.1, o.2.2)
      | none =>
        (.ok ⟨true, title, clean_title_with_regex title, "regex", 3/4,
              some (pyInt (elapsedTotal * 1000)), none⟩, o.2.1, o.2.2)

/-- One element of the `/clean-batch` results list. -/
structure BatchItem where
  original : String
  cleaned : String
deriving DecidableEq

/-- The per-title body of `clean_batch_endpoint`'s loop (lines 272-283):
AI via the cache when enabled (`None` otherwise); a falsy AI result
(`None` or the empty string) falls back to the Pattern Extractor; the
per-item `except` also falls back to the Pattern Extractor, so no title
can abort the batch. -/
def clean_batch_item (env : AIEnv) (title : String) (cache : CacheState) :
    BatchItem × CacheState × List AICall :=
  let o := if env.enabled then cached_clean_title env title cache
           else (none, cache, [])
  let cleaned := match o.1 with
    | some s => if s = "" then clean_title_with_regex title else s
    | none => clean_title_with_regex title
  (⟨title, cleaned⟩, o.2.1, o.2.2)

/-- `clean_batch_endpoint` (lines 264-294): fold `clean_batch_item` over
the titles, threading the cache and collecting one result per title in
order. -/
def clean_batch_run (env : AIEnv) :
    List String → CacheState → List BatchItem × CacheState × List AICall
  | [], cache => ([], cache, [])
  | t :: ts, cache =>
    let o := clean_batch_item env t cache
    let rest := clean_batch_run env ts o.2.1
    (o.1 :: rest.1, rest.2.1, o.2.2 ++ rest.2.2)

/-- The JSON body of `/health` (lines 296-309). -/
structure HealthResponse where
  status : String
  service : String
  ai_available : Bool
  cache_size : Nat
  cache_hits : Nat
  cache_misses : Nat
  uptime : String
deriving DecidableEq

/-- `health_check` (lines 296-309): reports the AI flag and the
`cache_info()` counters of `cached_clean_title`. -/
def health_check (env : AIEnv) (s : CacheState) : HealthResponse :=
  ⟨"ok", "Pak Buy Pro AI Server", env.enabled, s.entries.length,
   s.hits, s.misses, "running"⟩

/-- The `method` field of a 200 response (`none` for a 400 error). -/
def respMethod : EndpointResult → Option String
  | .ok r => some r.method
  | .badRequest _ => none

/-- The `cleaned` field of a 200 response (`none` for a 400 error). -/
def respCleaned : EndpointResult → Option String
  | .ok r => some r.cleaned
  | .badRequest _ => none

/-- "The cache holds no successful cleaning for `t`": every cached value
for `t` is the failure value `None`. -/
def cacheOk (t : String) (s : CacheState) : Prop :=
  ∀ v, lookupCache t s.entries = some v → v = none

/-! ## Theorems -/

/-- Claim C1, counterexample: a request carrying the empty title string
does not get a CleaningResult — the endpoint answers with the 400 error
body `No title provided`, refuting totality "including empty" titles. -/
theorem C1_counterexample :
    (clean_title_endpoint ⟨false, fun _ => none⟩ emptyCache "" 3 0 0 none).1 =
      .badRequest "No title provided" := by
  decide

/-- Claim C1 (amended): for every request carrying a non-empty title
string, the single-title cleaning operation returns a 200 result whose
`method` is one of `ai`, `regex`, `none`, and never propagates an
unhandled fault. -/
theorem C1_totality (env : AIEnv) (cache : CacheState) (title : String)
    (timeout eAI eT : ℚ) (fault : Option String) (ht : title ≠ "") :
    ∃ r, (clean_title_endpoint env cache title timeout eAI eT fault).1 = .ok r ∧
      (r.method = "ai" ∨ r.method = "regex" ∨ r.method = "none") ∧
      r.success = true := by
  simp only [clean_title_endpoint, if_neg ht]
  cases fault with
  | some e => exact ⟨_, rfl, .inr (.inr rfl), rfl⟩
  | none =>
    cases hp : (planA env title cache timeout eAI).1 with
    | none => exact ⟨_, rfl, .inr (.inl rfl), rfl⟩
    | some s =>
      by_cases hs : s = ""
      · subst hs; exact ⟨_, rfl, .inr (.inl rfl), rfl⟩
      · simp only [if_neg hs]; exact ⟨_, rfl, .inl rfl, rfl⟩

/-- Claim C1, witness for the amended theorem at a concrete input. -/
theorem C1_totality_witness :
    ("Samsung" : String) ≠ "" ∧
    ∃ r, (clean_title_endpoint ⟨false, fun _ => none⟩ emptyCache "Samsung"
            3 0 0 none).1 = .ok r ∧
      (r.method = "ai" ∨ r.method = "regex" ∨ r.method = "none") ∧
      r.success = true :=
  ⟨by decide, C1_totality ⟨false, fun _ => none⟩ emptyCache "Samsung" 3 0 0 none
    (by decide)⟩

/-- Claim C2: evaluation of the code at the failing input.  With the
external completion failing, the first call to `cached_clean_title`
performs one external call and memoizes the failure value `None` for the
title; the second call with the byte-identical title performs zero
external calls, returning the memoized failure instead of retrying —
`lru_cache` caches the `None` that `clean_title_with_ai` returns on
failure, contradicting the no-cache-on-failure claim. -/
theorem C2_failure_is_cached :
    (cached_clean_title ⟨true, fun _ => none⟩ "Samsung Galaxy A15"
       emptyCache).2.2.length = 1 ∧
    lookupCache "Samsung Galaxy A15"
      (cached_clean_title ⟨true, fun _ => none⟩ "Samsung Galaxy A15"
        emptyCache).2.1.entries = some none ∧
    (cached_clean_title ⟨true, fun _ => none⟩ "Samsung Galaxy A15"
      (cached_clean_title ⟨true, fun _ => none⟩ "Samsung Galaxy A15"
        emptyCache).2.1).2.2.length = 0 := by
  decide

/-- Claim C3, counterexample: for the non-empty title `"Sale"` (with AI
disabled so the request completes without any fault), the response
carries the empty string as `cleaned` with method `regex` — the Pattern
Extractor strips the whole title to nothing and no original-title
fallback applies. -/
theorem C3_counterexample :
    respCleaned (clean_title_endpoint ⟨false, fun _ => none⟩ emptyCache "Sale"
        3 0 0 none).1 = some "" ∧
    respMethod (clean_title_endpoint ⟨false, fun _ => none⟩ emptyCache "Sale"
        3 0 0 none).1 = some "regex" ∧
    ("Sale" : String) ≠ "" := by
  decide

/-- Claim C3 (amended): the original-title fallback with method `none`
and confidence 0.5 is produced exactly on the unexpected-fault path;
on the ordinary path a non-empty, pure-noise title may instead yield an
empty `cleaned` with method `regex`. -/
theorem C3_fault_fallback (env : AIEnv) (cache : CacheState) (title : String)
    (timeout eAI eT : ℚ) (e : String) (ht : title ≠ "") :
    (clean_title_endpoint env cache title timeout eAI eT (some e)).1 =
      .ok ⟨true, title, title, "none", 1/2, none, some e⟩ := by
  simp only [clean_title_endpoint, if_neg ht]

/-- Claim C3, witness for the amended theorem at a concrete input. -/
theorem C3_fault_fallback_witness :
    ("Samsung" : String) ≠ "" ∧
    (clean_title_endpoint ⟨false, fun _ => none⟩ emptyCache "Samsung"
        3 0 0 (some "boom")).1 =
      .ok ⟨true, "Samsung", "Samsung", "none", 1/2, none, some "boom"⟩ :=
  ⟨by decide, C3_fault_fallback ⟨false, fun _ => none⟩ emptyCache "Samsung"
    3 0 0 "boom" (by decide)⟩

set_option maxRecDepth 100000 in
/-- Claim C4: evaluation of the code at the failing input.  The Pattern
Extractor maps the Samsung scenario title to `"Samsung Ga"`: the lazy
model capture `[A-Z0-9][A-Za-z0-9\s]+?` stops after two characters
because everything after it is optional, so the output contains neither
a model containing "Galaxy A15" nor the "8GB"/"256GB" tokens. -/
theorem C4_model_truncated :
    clean_title_with_regex
      "Samsung Galaxy A15 8GB/256GB PTA Approved Official Warranty Fast Shipping"
      = "Samsung Ga" := by
  decide

set_option maxRecDepth 100000 in
/-- Claim C5: evaluation of the code at the failing input.  The Pattern
Extractor is not idempotent: applied to the already-clean
`"Samsung Galaxy A15 8GB 256GB"` it mutates it to `"Samsung Ga"`. -/
theorem C5_not_idempotent :
    clean_title_with_regex "Samsung Galaxy A15 8GB 256GB" = "Samsung Ga" ∧
    ("Samsung Ga" : String) ≠ "Samsung Galaxy A15 8GB 256GB" := by
  decide

set_option maxRecDepth 100000 in
/-- Claim C6: evaluation of the code at the failing input.  The Pattern
Extractor maps the HP scenario title to `"HP P 8GB 512GB"`: the lazy
model capture stops after one character, so "Pavilion Gaming" and the
`i5` processor token are absent (while "HP", "8GB", "512GB" survive and
"Warranty" is stripped). -/
theorem C6_laptop_model_truncated :
    clean_title_with_regex
      "HP Pavilion Gaming Laptop i5 11th Gen 8GB RAM 512GB SSD Official Warranty"
      = "HP P 8GB 512GB" := by
  decide

lemma planA_timeout_none (env : AIEnv) (title : String) (cache : CacheState)
    (timeout eAI : ℚ) (hb : timeout < eAI) :
    (planA env title cache timeout eAI).1 = none := by
  unfold planA
  by_cases he : env.enabled <;> simp [he, hb]

/-- Claim C7: whenever the AI phase's elapsed wall-clock time exceeds the
caller-supplied budget, the response method is never `ai`, and (absent an
unexpected fault) it is `regex`, regardless of what the AI call returned. -/
theorem C7_fallback_on_timeout (env : AIEnv) (cache : CacheState)
    (title : String) (timeout eAI eT : ℚ)
    (ht : title ≠ "") (hb : timeout < eAI) :
    (∀ fault r,
        (clean_title_endpoint env cache title timeout eAI eT fault).1 = .ok r →
        r.method ≠ "ai") ∧
    ∃ r, (clean_title_endpoint env cache title timeout eAI eT none).1 = .ok r ∧
      r.method = "regex" := by
  constructor
  · intro fault r hr
    revert hr
    simp only [clean_title_endpoint, if_neg ht]
    cases fault with
    | some e => intro hr; cases hr; simp
    | none =>
      rw [planA_timeout_none env title cache timeout eAI hb]
      intro hr; cases hr; simp
  · simp only [clean_title_endpoint, if_neg ht]
    rw [planA_timeout_none env title cache timeout eAI hb]
    exact ⟨_, rfl, rfl⟩

/-- Claim C7, witness at a concrete input (budget 1, elapsed 2). -/
theorem C7_fallback_on_timeout_witness :
    (("Samsung" : String) ≠ "" ∧ (1 : ℚ) < 2) ∧
    ((∀ fault r,
        (clean_title_endpoint ⟨true, fun _ => some "Samsung Galaxy"⟩ emptyCache
          "Samsung" 1 2 2 fault).1 = .ok r → r.method ≠ "ai") ∧
     ∃ r, (clean_title_endpoint ⟨true, fun _ => some "Samsung Galaxy"⟩ emptyCache
          "Samsung" 1 2 2 none).1 = .ok r ∧ r.method = "regex") :=
  ⟨⟨by decide, by norm_num⟩,
   C7_fallback_on_timeout ⟨true, fun _ => some "Samsung Galaxy"⟩ emptyCache
     "Samsung" 1 2 2 (by decide) (by norm_num)⟩

lemma lookupCache_take1000 (t : String) (v : Option String)
    (l : List (String × Option String)) :
    lookupCache t (((t, v) :: l).take 1000) = some v := by
  simp [lookupCache]

lemma ai_calls_length (env : AIEnv) (title : String) (he : env.enabled = true) :
    (clean_title_with_ai env title).2.length = 1 := by
  simp only [clean_title_with_ai, he]
  cases env.complete (promptText title) <;> simp

/-- Claim C8: two calls of the cache-wrapped AI cleaner with a
byte-identical uncached title perform exactly one underlying external
completion call; the miss counter increments only on the first call and
the hit counter only on the second; and the health operation reports
exactly these counters. -/
theorem C8_cache_correctness (env : AIEnv) (cache : CacheState)
    (title : String) (he : env.enabled = true)
    (hc : lookupCache title cache.entries = none) :
    (cached_clean_title env title cache).2.2.length +
      (cached_clean_title env title
        (cached_clean_title env title cache).2.1).2.2.length = 1 ∧
    (cached_clean_title env title cache).2.1.misses = cache.misses + 1 ∧
    (cached_clean_title env title cache).2.1.hits = cache.hits ∧
    (cached_clean_title env title
      (cached_clean_title env title cache).2.1).2.1.hits = cache.hits + 1 ∧
    (cached_clean_title env title
      (cached_clean_title env title cache).2.1).2.1.misses = cache.misses + 1 ∧
    (health_check env (cached_clean_title env title
      (cached_clean_title env title cache).2.1).2.1).cache_hits =
        cache.hits + 1 ∧
    (health_check env (cached_clean_title env title
      (cached_clean_title env title cache).2.1).2.1).cache_misses =
        cache.misses + 1 := by
  have h1 : cached_clean_title env title cache =
      ((clean_title_with_ai env title).1,
       ⟨((title, (clean_title_with_ai env title).1) :: cache.entries).take 1000,
        cache.hits, cache.misses + 1⟩,
       (clean_title_with_ai env title).2) := by
    simp only [cached_clean_title, hc]
  have h2 : cached_clean_title env title
      (⟨((title, (clean_title_with_ai env title).1) :: cache.entries).take 1000,
        cache.hits, cache.misses + 1⟩ : CacheState) =
      ((clean_title_with_ai env title).1,
       ⟨(title, (clean_title_with_ai env title).1) ::
          ((((title, (clean_title_with_ai env title).1) ::
             cache.entries).take 1000).filter (fun e => e.1 != title)),
        cache.hits + 1, cache.misses + 1⟩, []) := by
    simp only [cached_clean_title, lookupCache_take1000]
  rw [h1]
  simp only [h2]
  simp [ai_calls_length env title he, health_check]

/-- Claim C8, witness at a concrete input. -/
theorem C8_cache_correctness_witness :
    ((⟨true, fun _ => some "X"⟩ : AIEnv).enabled = true ∧
     lookupCache "T" emptyCache.entries = none) ∧
    ((cached_clean_title ⟨true, fun _ => some "X"⟩ "T" emptyCache).2.2.length +
      (cached_clean_title ⟨true, fun _ => some "X"⟩ "T"
        (cached_clean_title ⟨true, fun _ => some "X"⟩ "T" emptyCache).2.1).2.2.length
        = 1 ∧
     (cached_clean_title ⟨true, fun _ => some "X"⟩ "T" emptyCache).2.1.misses =
        emptyCache.misses + 1 ∧
     (cached_clean_title ⟨true, fun _ => some "X"⟩ "T" emptyCache).2.1.hits =
        emptyCache.hits ∧
     (cached_clean_title ⟨true, fun _ => some "X"⟩ "T"
       (cached_clean_title ⟨true, fun _ => some "X"⟩ "T" emptyCache).2.1).2.1.hits =
        emptyCache.hits + 1 ∧
     (cached_clean_title ⟨true, fun _ => some "X"⟩ "T"
       (cached_clean_title ⟨true, fun _ => some "X"⟩ "T" emptyCache).2.1).2.1.misses =
        emptyCache.misses + 1 ∧
     (health_check ⟨true, fun _ => some "X"⟩ (cached_clean_title ⟨true, fun _ => some "X"⟩ "T"
       (cached_clean_title ⟨true, fun _ => some "X"⟩ "T" emptyCache).2.1).2.1).cache_hits =
        emptyCache.hits + 1 ∧
     (health_check ⟨true, fun _ => some "X"⟩ (cached_clean_title ⟨true, fun _ => some "X"⟩ "T"
       (cached_clean_title ⟨true, fun _ => some "X"⟩ "T" emptyCache).2.1).2.1).cache_misses =
        emptyCache.misses + 1) :=
  ⟨⟨rfl, rfl⟩,
   C8_cache_correctness ⟨true, fun _ => some "X"⟩ emptyCache "T" rfl rfl⟩

lemma lookupCache_filter_ne (t u : String) (h : t ≠ u)
    (l : List (String × Option String)) :
    lookupCache t (l.filter (fun e => e.1 != u)) = lookupCache t l := by
  induction l with
  | nil => rfl
  | cons hd tl ih =>
    by_cases hk : hd.1 = u
    · have hne : ¬(hd.1 = t) := by rw [hk]; exact fun hh => h hh.symm
      have hut : ¬(u = t) := fun hh => h hh.symm
      simp [List.filter_cons, hk, lookupCache, hne, hut, ih]
    · simp only [List.filter_cons, bne_iff_ne, ne_eq, hk, not_false_eq_true,
        if_true, lookupCache, ih]

lemma lookupCache_take_some (t : String) (v : Option String)
    (l : List (String × Option String)) (n : Nat)
    (h : lookupCache t (l.take n) = some v) : lookupCache t l = some v := by
  induction l generalizing n with
  | nil => simp [lookupCache] at h
  | cons hd tl ih =>
    cases n with
    | zero => simp [lookupCache] at h
    | succ m =>
      rw [List.take_succ_cons] at h
      rw [lookupCache] at h ⊢
      by_cases hk : hd.1 = t
      · simpa [hk] using h
      · rw [if_neg hk] at h ⊢
        exact ih m h

lemma ai_result_none (env : AIEnv) (t : String)
    (hf : env.complete (promptText t) = none) :
    (clean_title_with_ai env t).1 = none := by
  unfold clean_title_with_ai
  by_cases he : env.enabled <;> simp [he, hf]

lemma cached_result_none (env : AIEnv) (t : String) (cache : CacheState)
    (hf : env.complete (promptText t) = none) (hok : cacheOk t cache) :
    (cached_clean_title env t cache).1 = none := by
  unfold cached_clean_title
  cases hl : lookupCache t cache.entries with
  | some v => simpa using hok v hl
  | none => simpa using ai_result_none env t hf

lemma cached_preserves_cacheOk (env : AIEnv) (u t : String)
    (cache : CacheState) (hf : env.complete (promptText t) = none)
    (hok : cacheOk t cache) :
    cacheOk t (cached_clean_title env u cache).2.1 := by
  unfold cached_clean_title
  cases hl : lookupCache u cache.entries with
  | some v =>
    intro w hw
    simp only at hw
    rw [lookupCache] at hw
    by_cases hu : u = t
    · subst hu
      rw [if_pos rfl] at hw
      cases hw
      exact hok v hl
    · rw [if_neg hu, lookupCache_filter_ne t u (fun hh => hu hh.symm)] at hw
      exact hok w hw
  | none =>
    intro w hw
    simp only at hw
    have h2 := lookupCache_take_some t w _ 1000 hw
    rw [lookupCache] at h2
    by_cases hu : u = t
    · subst hu
      rw [if_pos rfl] at h2
      cases h2
      exact ai_result_none env u hf
    · rw [if_neg hu] at h2
      exact hok w h2

lemma batch_item_preserves (env : AIEnv) (u t : String) (cache : CacheState)
    (hf : env.complete (promptText t) = none) (hok : cacheOk t cache) :
    cacheOk t (clean_batch_item env u cache).2.1 := by
  unfold clean_batch_item
  by_cases he : env.enabled
  · simp only [he, if_true]
    exact cached_preserves_cacheOk env u t cache hf hok
  · simp only [he, if_false]
    exact hok

lemma batch_item_original (env : AIEnv) (u : String) (cache : CacheState) :
    (clean_batch_item env u cache).1.original = u := rfl

lemma batch_item_failing (env : AIEnv) (t : String) (cache : CacheState)
    (hf : env.complete (promptText t) = none) (hok : cacheOk t cache) :
    (clean_batch_item env t cache).1.cleaned = clean_title_with_regex t := by
  unfold clean_batch_item
  by_cases he : env.enabled
  · simp only [he, if_true]
    rw [cached_result_none env t cache hf hok]
  · simp [he]

/-- Claim C9: for every batch, the run returns one result per input title
in order (originals preserved), and — when the external completion fails
for a title `t` that the cache holds no successful cleaning for — every
result item for `t` has `cleaned` equal to the Pattern Extractor's
output for `t`; in particular the failure aborts nothing. -/
theorem C9_batch_partial_failure (env : AIEnv) (titles : List String)
    (cache : CacheState) (t : String)
    (hf : env.complete (promptText t) = none) (hok : cacheOk t cache) :
    (clean_batch_run env titles cache).1.map BatchItem.original = titles ∧
    ∀ item ∈ (clean_batch_run env titles cache).1, item.original = t →
      item.cleaned = clean_title_with_regex t := by
  induction titles generalizing cache with
  | nil => exact ⟨rfl, by intro item hmem; cases hmem⟩
  | cons u ts ih =>
    obtain ⟨ih1, ih2⟩ := ih (clean_batch_item env u cache).2.1
      (batch_item_preserves env u t cache hf hok)
    constructor
    · show ((clean_batch_item env u cache).1 ::
        (clean_batch_run env ts (clean_batch_item env u cache).2.1).1).map
          BatchItem.original = u :: ts
      rw [List.map_cons, ih1, batch_item_original]
    · intro item hmem ho
      have hmem2 : item = (clean_batch_item env u cache).1 ∨
          item ∈ (clean_batch_run env ts (clean_batch_item env u cache).2.1).1 :=
        List.mem_cons.mp hmem
      rcases hmem2 with rfl | hmem3
      · have hu : u = t := by rw [← batch_item_original env u cache]; exact ho
        subst hu
        exact batch_item_failing env u cache hf hok
      · exact ih2 item hmem3 ho

/-- Claim C9, witness: a three-title batch whose external completion
fails exactly on the second title. -/
theorem C9_batch_partial_failure_witness :
    ((⟨true, fun p => if p = promptText "B" then none else some "X"⟩ :
        AIEnv).complete (promptText "B") = none ∧
      cacheOk "B" emptyCache) ∧
    ((clean_batch_run ⟨true, fun p => if p = promptText "B" then none else some "X"⟩
        ["A", "B", "C"] emptyCache).1.map BatchItem.original = ["A", "B", "C"] ∧
     ∀ item ∈ (clean_batch_run
        ⟨true, fun p => if p = promptText "B" then none else some "X"⟩
        ["A", "B", "C"] emptyCache).1, item.original = "B" →
       item.cleaned = clean_title_with_regex "B") :=
  ⟨⟨by simp, fun v hv => by simp [lookupCache, emptyCache] at hv⟩,
   C9_batch_partial_failure
     ⟨true, fun p => if p = promptText "B" then none else some "X"⟩
     ["A", "B", "C"] emptyCache "B" (by simp)
     (fun v hv => by simp [lookupCache, emptyCache] at hv)⟩

lemma planA_calls (env : AIEnv) (title : String) (cache : CacheState)
    (timeout eAI : ℚ) :
    (planA env title cache timeout eAI).2.2 =
      if env.enabled then (cached_clean_title env title cache).2.2 else [] := by
  unfold planA
  by_cases he : env.enabled <;> simp [he]

lemma endpoint_calls (env : AIEnv) (cache : CacheState) (title : String)
    (timeout eAI eT : ℚ) (fault : Option String) :
    (clean_title_endpoint env cache title timeout eAI eT fault).2.2 =
      if title = "" then [] else
        match fault with
        | some _ => []
        | none => (planA env title cache timeout eAI).2.2 := by
  unfold clean_title_endpoint
  by_cases ht : title = ""
  · simp [ht]
  · simp only [if_neg ht]
    cases fault with
    | some e => rfl
    | none =>
      cases hp : (planA env title cache timeout eAI).1 with
      | none => rfl
      | some s => by_cases hs : s = "" <;> simp [hs]

lemma cached_calls_shape (env : AIEnv) (title : String) (cache : CacheState) :
    ∀ c ∈ (cached_clean_title env title cache).2.2,
      c.alarmSeconds = 3 ∧ c.prompt = promptText title := by
  unfold cached_clean_title
  cases hl : lookupCache title cache.entries with
  | some v => intro c hc; simp at hc
  | none =>
    intro c hc
    simp only at hc
    revert hc
    unfold clean_title_with_ai
    by_cases he : env.enabled
    · simp only [he, Bool.not_true, Bool.false_eq_true, if_false]
      cases hr : env.complete (promptText title) with
      | none => intro hc; simp at hc; subst hc; exact ⟨rfl, rfl⟩
      | some txt => intro hc; simp at hc; subst hc; exact ⟨rfl, rfl⟩
    · simp [he]

/-- Claim C10: the hard deadline installed around the external AI call is
the fixed constant 3 for every request, and for any two values of the
caller-supplied timeout budget the AI invocations performed (prompt,
alarm deadline, and response) are identical — the budget influences only
the post-hoc elapsed-time comparison. -/
theorem C10_budget_not_forwarded_to_ai (env : AIEnv) (cache : CacheState)
    (title : String) (t1 t2 eAI eT : ℚ) (fault : Option String) :
    (clean_title_endpoint env cache title t1 eAI eT fault).2.2 =
      (clean_title_endpoint env cache title t2 eAI eT fault).2.2 ∧
    ∀ c ∈ (clean_title_endpoint env cache title t1 eAI eT fault).2.2,
      c.alarmSeconds = 3 ∧ c.prompt = promptText title := by
  have hcalls : ∀ tb : ℚ,
      (clean_title_endpoint env cache title tb eAI eT fault).2.2 =
      if title = "" then [] else
        match fault with
        | some _ => []
        | none => if env.enabled then (cached_clean_title env title cache).2.2
                  else [] := by
    intro tb
    rw [endpoint_calls, planA_calls]
  rw [hcalls t1, hcalls t2]
  refine ⟨rfl, ?_⟩
  by_cases ht : title = ""
  · simp [ht]
  · simp only [if_neg ht]
    cases fault with
    | some e => intro c hc; simp at hc
    | none =>
      by_cases he : env.enabled
      · simp only [he, if_true]
        exact cached_calls_shape env title cache
      · simp [he]

end PakBuy
